import Mathlib

/-!
Verification of the automated news report generation pipeline
(`automated_report.py`): a shallow embedding of the loader, analyzer and
renderer, together with theorems settling the specified behaviour.

Python dictionaries with optional fields are embedded as structures with
`Option` fields; `dict.get(key, default)` becomes `Option.getD`.  Python's
`sorted(..., key=..., reverse=True)` is a stable sort and is embedded with
`List.insertionSort` (which inserts an element *before* the first element it
compares greater-or-equal to, hence is stable in the same sense).  Fallible
code (the `category['name']` subscript, which raises `KeyError` when the key
is absent) is embedded in `Except`.
-/

namespace AutoReport

/-! ## Generic JSON values (result type of the loader) -/

/-- A generic parsed JSON document, as returned by `json.load`. -/
inductive Json where
  | null : Json
  | bool (b : Bool) : Json
  | num (q : Rat) : Json
  | str (s : String) : Json
  | arr (elems : List Json) : Json
  | obj (fields : List (String × Json)) : Json

/-! ## Data model of the input document (§3 of the source's data shape) -/

/-- An entry of `articles`: every field is optional. -/
structure Article where
  title : Option String
  author : Option String
  category : Option String
  views : Option Int
  readTime : Option Int
deriving DecidableEq, Repr

/-- An entry of `categories`. -/
structure Category where
  name : Option String
  articleCount : Option Int
deriving DecidableEq, Repr

/-- An entry of `readingList`; `completedAt` present and non-empty means completed. -/
structure ReadingListEntry where
  completedAt : Option String
deriving DecidableEq, Repr

/-- The `userPreferences` record. -/
structure Prefs where
  categories : Option (List String)
  sources : Option (List String)
  fontSize : Option String
  theme : Option String
  notifications : Option Bool
deriving DecidableEq, Repr

/-- The empty preferences record: every field absent (Python `{}`). -/
def Prefs.empty : Prefs := ⟨none, none, none, none, none⟩

/-- An entry of `readingHistory`. -/
structure HistoryEntry where
  timeSpent : Option Int
deriving DecidableEq, Repr

/-- The whole input document; every top-level field is optional
(`data.get(key, default)` in the source). Bookmark entries are arbitrary
JSON values, only their count is used. -/
structure Doc where
  articles : Option (List Article)
  categories : Option (List Category)
  bookmarks : Option (List Json)
  readingList : Option (List ReadingListEntry)
  userPreferences : Option Prefs
  readingHistory : Option (List HistoryEntry)

/-! ## Loader (`load_data`, source lines 20-23)

The file system and the JSON parser are external effects; they enter the
embedding as explicit function arguments (`fileSystem` maps a path to the
file's contents when the file exists, `parseJson` returns the parsed
document when the contents are well-formed JSON).  `load_data` has no
handler, so `open` failing yields the not-found error and `json.load`
failing yields the parse error. -/

inductive LoadErr where
  | notFound : LoadErr
  | parseError : LoadErr
deriving DecidableEq, Repr

def load_data (parseJson : String → Option Json) (fileSystem : String → Option String)
    (filepath : String) : Except LoadErr Json :=
  match fileSystem filepath with
  | none => Except.error LoadErr.notFound
  | some contents =>
    match parseJson contents with
    | none => Except.error LoadErr.parseError
    | some data => Except.ok data

/-! ## Analyzer (`analyze_data`, source lines 25-64) -/

/-- The error raised by the Python runtime on `category['name']` when the
key is absent (source line 43). -/
inductive PyErr where
  | keyError (key : String) : PyErr
deriving DecidableEq, Repr

/-- The summary record produced by `analyze_data`. -/
structure Analysis where
  total_articles : Nat
  top_articles : List Article
  category_counts : List (String × Int)
  total_bookmarks : Nat
  reading_list_progress : Rat
  user_preferences : Prefs
  total_reading_history : Nat
  total_time_spent : Int
deriving DecidableEq, Repr

/-- `x.get('views', 0)` applied to an article. -/
def viewsD (a : Article) : Int := a.views.getD 0

/-- Comparison used by `sorted(articles, key=lambda x: x.get('views',0), reverse=True)`:
`a` may come before `b` iff `a`'s views are at least `b`'s. -/
def viewsGe (a b : Article) : Prop := viewsD b ≤ viewsD a

instance : DecidableRel viewsGe := fun a b => inferInstanceAs (Decidable (viewsD b ≤ viewsD a))

instance : IsTotal Article viewsGe := ⟨fun a b => le_total (viewsD b) (viewsD a)⟩

instance : IsTrans Article viewsGe := ⟨fun _ _ _ hab hbc => le_trans hbc hab⟩

/-- A Python `dict` as an insertion-ordered association list:
assigning to an existing key updates the value in place (the key keeps its
original position), assigning a new key appends it. -/
def dictInsert (d : List (String × Int)) (k : String) (v : Int) : List (String × Int) :=
  match d with
  | [] => [(k, v)]
  | (k', v') :: rest => if k' = k then (k', v) :: rest else (k', v') :: dictInsert rest k v

/-- Python `dict` lookup on the association-list embedding. -/
def dictLookup : List (String × Int) → String → Option Int
  | [], _ => none
  | (k', v) :: rest, k => if k' = k then some v else dictLookup rest k

/-- The `for category in categories` loop (source lines 42-43):
`category['name']` raises `KeyError` when the key is absent,
`category.get('articleCount', 0)` defaults to `0`. -/
def buildCategoryCounts : List Category → List (String × Int) → Except PyErr (List (String × Int))
  | [], acc => Except.ok acc
  | ⟨none, _⟩ :: _, _ => Except.error (PyErr.keyError "name")
  | ⟨some n, ac⟩ :: rest, acc => buildCategoryCounts rest (dictInsert acc n (ac.getD 0))

/-- Python truthiness of `rl.get('completedAt')`: a present, non-empty string. -/
def truthy (s : Option String) : Bool :=
  match s with
  | none => false
  | some s => s != ""

def analyze_data (data : Doc) : Except PyErr Analysis :=
  let articles := data.articles.getD []
  let categories := data.categories.getD []
  let bookmarks := data.bookmarks.getD []
  let reading_list := data.readingList.getD []
  let user_preferences := data.userPreferences.getD Prefs.empty
  let reading_history := data.readingHistory.getD []
  let top_articles := (List.insertionSort viewsGe articles).take 5
  match buildCategoryCounts categories [] with
  | Except.error e => Except.error e
  | Except.ok category_counts =>
    let total_reading := reading_list.length
    let completed := (reading_list.filter (fun rl => truthy rl.completedAt)).length
    let progress_percent : Rat :=
      if total_reading > 0 then (completed : Rat) / (total_reading : Rat) * 100 else 0
    let total_history := reading_history.length
    let total_time_spent := (reading_history.map (fun rh => rh.timeSpent.getD 0)).sum
    Except.ok
      { total_articles := articles.length
        top_articles := top_articles
        category_counts := category_counts
        total_bookmarks := bookmarks.length
        reading_list_progress := progress_percent
        user_preferences := user_preferences
        total_reading_history := total_history
        total_time_spent := total_time_spent }

/-- The summary record `analyze_data` returns on the success path, as a
function of the input document and the computed category counts (used to
state extraction lemmas). -/
def mkAnalysis (data : Doc) (category_counts : List (String × Int)) : Analysis :=
  { total_articles := (data.articles.getD []).length
    top_articles := (List.insertionSort viewsGe (data.articles.getD [])).take 5
    category_counts := category_counts
    total_bookmarks := (data.bookmarks.getD []).length
    reading_list_progress :=
      if (data.readingList.getD []).length > 0 then
        (((data.readingList.getD []).filter (fun rl => truthy rl.completedAt)).length : Rat) /
          ((data.readingList.getD []).length : Rat) * 100
      else 0
    user_preferences := data.userPreferences.getD Prefs.empty
    total_reading_history := (data.readingHistory.getD []).length
    total_time_spent := ((data.readingHistory.getD []).map (fun rh => rh.timeSpent.getD 0)).sum }

/-! ## Stability of the top-5 selection (claim C1)

The specification's "sorted by `views` descending, stable on ties" is
formalised by tagging each article with its input position and sorting by
the *linear* order "more views first, ties broken by smaller input index":
a stable descending sort is exactly the sort whose output is ordered by
that linear order.  We then prove that the source's views-only sort
coincides with it. -/

/-- `viewsGe` lifted to index-tagged articles (ignoring the index), the
comparison actually used by the source on the tagged list. -/
def viewsGeSnd (p q : Nat × Article) : Prop := viewsGe p.2 q.2

instance : DecidableRel viewsGeSnd := fun p q => inferInstanceAs (Decidable (viewsGe p.2 q.2))

/-- Spec-side order: strictly more views first, ties broken by input index. -/
def specStableLe (p q : Nat × Article) : Prop :=
  viewsD q.2 < viewsD p.2 ∨ (viewsD p.2 = viewsD q.2 ∧ p.1 ≤ q.1)

instance : DecidableRel specStableLe :=
  fun p q => inferInstanceAs (Decidable (viewsD q.2 < viewsD p.2 ∨ (viewsD p.2 = viewsD q.2 ∧ p.1 ≤ q.1)))

/-- Spec-side top-articles: tag the articles with their input index, sort by
the linear order `specStableLe`, drop the tags, truncate to 5.  This is the
specification's "sorted by `views` descending, stable, at most 5 entries". -/
def spec_top_articles (l : List Article) : List Article :=
  ((List.insertionSort specStableLe (List.enumFrom 0 l)).map Prod.snd).take 5

lemma enumFrom_map_snd (n : Nat) (l : List Article) :
    (List.enumFrom n l).map Prod.snd = l := by
  induction l generalizing n with
  | nil => rfl
  | cons a t ih => simp [List.enumFrom, ih]

lemma le_fst_of_mem_enumFrom {n : Nat} {l : List Article} {p : Nat × Article}
    (h : p ∈ List.enumFrom n l) : n ≤ p.1 := by
  induction l generalizing n with
  | nil => cases h
  | cons a t ih =>
    rcases List.mem_cons.mp h with h | h
    · subst h; exact le_refl n
    · exact Nat.le_of_succ_le (ih h)

lemma pairwise_fst_lt_enumFrom (n : Nat) (l : List Article) :
    (List.enumFrom n l).Pairwise (fun p q => p.1 < q.1) := by
  induction l generalizing n with
  | nil => exact List.Pairwise.nil
  | cons a t ih =>
    refine List.Pairwise.cons ?_ (ih (n + 1))
    intro q hq
    exact Nat.lt_of_lt_of_le (Nat.lt_succ_self n) (le_fst_of_mem_enumFrom hq)

lemma orderedInsert_congr {α : Type} (r s : α → α → Prop) [DecidableRel r] [DecidableRel s]
    (a : α) (l : List α) (h : ∀ b ∈ l, (r a b ↔ s a b)) :
    List.orderedInsert r a l = List.orderedInsert s a l := by
  induction l with
  | nil => rfl
  | cons b t ih =>
    simp only [List.orderedInsert]
    by_cases hr : r a b
    · rw [if_pos hr, if_pos ((h b (List.mem_cons_self b t)).mp hr)]
    · rw [if_neg hr, if_neg (fun hs => hr ((h b (List.mem_cons_self b t)).mpr hs)),
        ih (fun x hx => h x (List.mem_cons_of_mem b hx))]

lemma map_snd_orderedInsert (p : Nat × Article) (l : List (Nat × Article)) :
    (List.orderedInsert viewsGeSnd p l).map Prod.snd =
      List.orderedInsert viewsGe p.2 (l.map Prod.snd) := by
  induction l with
  | nil => rfl
  | cons q t ih =>
    simp only [List.orderedInsert, List.map]
    by_cases h : viewsGe p.2 q.2
    · rw [if_pos h, if_pos (show viewsGeSnd p q from h)]
      simp
    · rw [if_neg h, if_neg (show ¬viewsGeSnd p q from h)]
      simp [ih]

lemma map_snd_insertionSort (l : List (Nat × Article)) :
    (List.insertionSort viewsGeSnd l).map Prod.snd =
      List.insertionSort viewsGe (l.map Prod.snd) := by
  induction l with
  | nil => rfl
  | cons p t ih =>
    simp only [List.insertionSort, List.map]
    rw [map_snd_orderedInsert, ih]

lemma insertionSort_viewsGeSnd_eq_spec (l : List (Nat × Article))
    (h : l.Pairwise (fun p q => p.1 < q.1)) :
    List.insertionSort viewsGeSnd l = List.insertionSort specStableLe l := by
  induction l with
  | nil => rfl
  | cons p t ih =>
    obtain ⟨hp, ht⟩ := List.pairwise_cons.mp h
    simp only [List.insertionSort]
    rw [ih ht]
    refine orderedInsert_congr _ _ p _ ?_
    intro q hq
    have hq' : q ∈ t := (List.perm_insertionSort specStableLe t).mem_iff.mp hq
    have hidx : p.1 < q.1 := hp q hq'
    simp only [viewsGeSnd, viewsGe, specStableLe]
    omega

/-- The source's views-only stable sort agrees with the spec's
index-breaking linear sort. -/
lemma insertionSort_viewsGe_eq_spec (l : List Article) :
    List.insertionSort viewsGe l =
      (List.insertionSort specStableLe (List.enumFrom 0 l)).map Prod.snd := by
  rw [← insertionSort_viewsGeSnd_eq_spec _ (pairwise_fst_lt_enumFrom 0 l),
    map_snd_insertionSort, enumFrom_map_snd]

lemma analyze_data_ok_iff {data : Doc} {a : Analysis} :
    analyze_data data = Except.ok a ↔
      ∃ cc, buildCategoryCounts (data.categories.getD []) [] = Except.ok cc ∧
        a = mkAnalysis data cc := by
  unfold analyze_data mkAnalysis
  cases hc : buildCategoryCounts (data.categories.getD []) [] with
  | error e => simp [hc]
  | ok cc =>
    simp only [hc]
    constructor
    · intro h
      exact ⟨cc, rfl, (Except.ok.injEq _ _ ▸ h).symm⟩
    · rintro ⟨cc', hcc', rfl⟩
      cases hcc'
      rfl

/-- C1: for every input document on which the analyzer succeeds, its
`top_articles` is the stable descending sort of the articles by `views`
(missing `views` counting as 0, ties keeping input order — formalised as the
index-tagged linear sort `spec_top_articles`), truncated to at most 5
entries; it has exactly `min N 5` entries and is ordered by non-increasing
views. -/
theorem analyze_top5_spec (data : Doc) (a : Analysis)
    (h : analyze_data data = Except.ok a) :
    a.top_articles = spec_top_articles (data.articles.getD []) ∧
    a.top_articles.length = min (data.articles.getD []).length 5 ∧
    a.top_articles.Pairwise viewsGe := by
  obtain ⟨cc, hcc, rfl⟩ := analyze_data_ok_iff.mp h
  refine ⟨?_, ?_, ?_⟩
  · show (List.insertionSort viewsGe (data.articles.getD [])).take 5 = _
    rw [spec_top_articles, insertionSort_viewsGe_eq_spec]
  · show ((List.insertionSort viewsGe (data.articles.getD [])).take 5).length = _
    rw [List.length_take, List.length_insertionSort, Nat.min_comm]
  · exact List.Pairwise.sublist (List.take_sublist 5 _)
      (List.sorted_insertionSort viewsGe (data.articles.getD []))

/-- Concrete articles used by the C1 witness (ties on views, one missing
`views` field). -/
def articleW (t : String) (v : Option Int) : Article :=
  { title := some t, author := none, category := none, views := v, readTime := none }

def W1 : Doc :=
  { articles := some [articleW "a0" (some 3), articleW "a1" (some 5), articleW "a2" (some 3),
      articleW "a3" none, articleW "a4" (some 7), articleW "a5" (some 5), articleW "a6" (some 1)]
    categories := none
    bookmarks := none
    readingList := none
    userPreferences := none
    readingHistory := none }

def A1 : Analysis :=
  { total_articles := 7
    top_articles := [articleW "a4" (some 7), articleW "a1" (some 5), articleW "a5" (some 5),
      articleW "a0" (some 3), articleW "a2" (some 3)]
    category_counts := []
    total_bookmarks := 0
    reading_list_progress := 0
    user_preferences := Prefs.empty
    total_reading_history := 0
    total_time_spent := 0 }

/-- C1 witness: the theorem instantiated on a concrete 7-article document. -/
theorem analyze_top5_spec_witness :
    analyze_data W1 = Except.ok A1 ∧
      (A1.top_articles = spec_top_articles (W1.articles.getD []) ∧
        A1.top_articles.length = min (W1.articles.getD []).length 5 ∧
        A1.top_articles.Pairwise viewsGe) :=
  ⟨rfl, analyze_top5_spec W1 A1 rfl⟩

/-! ## Time aggregation (claim C2) -/

/-- The claimed aggregation: sum of `max(timeSpent, 0)` over the reading
history, missing `timeSpent` taken as 0 (the spec's "negative or missing
values contribute 0"). -/
def specNonNegTime (history : List HistoryEntry) : Int :=
  (history.map (fun rh => max (rh.timeSpent.getD 0) 0)).sum

def W2 : Doc :=
  { articles := none
    categories := none
    bookmarks := none
    readingList := none
    userPreferences := none
    readingHistory := some [⟨some (-5)⟩] }

def A2 : Analysis :=
  { total_articles := 0
    top_articles := []
    category_counts := []
    total_bookmarks := 0
    reading_list_progress := 0
    user_preferences := Prefs.empty
    total_reading_history := 1
    total_time_spent := -5 }

/-- C2 counterexample: on a history consisting of one entry with
`timeSpent = -5` the analyzer returns `total_time_spent = -5`, while the
claimed sum of `max(timeSpent, 0)` is `0` — the code sums raw values, so a
negative entry contributes its negative value, not 0. -/
theorem time_spent_negative_counterexample :
    analyze_data W2 = Except.ok A2 ∧
      A2.total_time_spent ≠ specNonNegTime (W2.readingHistory.getD []) := by
  exact ⟨rfl, by decide⟩

/-- C2 amended: `total_time_spent` is the plain sum of `timeSpent` over all
`readingHistory` entries with missing `timeSpent` taken as 0; negative
values contribute their (negative) value. -/
theorem total_time_spent_sum (data : Doc) (a : Analysis)
    (h : analyze_data data = Except.ok a) :
    a.total_time_spent =
      ((data.readingHistory.getD []).map (fun rh => rh.timeSpent.getD 0)).sum := by
  obtain ⟨cc, hcc, rfl⟩ := analyze_data_ok_iff.mp h
  rfl

/-- C2 witness: the amended theorem instantiated on the concrete document. -/
theorem total_time_spent_sum_witness :
    A2.total_time_spent =
      ((W2.readingHistory.getD []).map (fun rh => rh.timeSpent.getD 0)).sum :=
  total_time_spent_sum W2 A2 rfl

/-! ## Missing `name` in a categories entry (claim C3) -/

def W3 : Doc :=
  { articles := none
    categories := some [{ name := none, articleCount := some 3 }]
    bookmarks := none
    readingList := none
    userPreferences := none
    readingHistory := none }

/-- C3: contrary to the never-an-error policy, a categories entry without a
`name` field makes the analyzer fail: `category['name']` (source line 43)
raises `KeyError('name')` instead of substituting a default. -/
theorem missing_category_name_keyerror :
    analyze_data W3 = Except.error (PyErr.keyError "name") := rfl

/-! ## Reading-list progress (claim C4) -/

/-- C4: the reading-list progress is `completed / total * 100` (as an exact
rational, so neither a division-by-zero error nor a NaN can arise) when the
reading list is non-empty, and exactly 0 when it is empty; an entry counts
as completed when its `completedAt` is present and non-empty. -/
theorem reading_list_progress_formula (data : Doc) (a : Analysis)
    (h : analyze_data data = Except.ok a) :
    (data.readingList.getD [] = [] → a.reading_list_progress = 0) ∧
    (data.readingList.getD [] ≠ [] →
      a.reading_list_progress =
        (((data.readingList.getD []).filter (fun rl => truthy rl.completedAt)).length : Rat) /
          ((data.readingList.getD []).length : Rat) * 100) := by
  obtain ⟨cc, hcc, rfl⟩ := analyze_data_ok_iff.mp h
  constructor
  · intro he
    show (if (data.readingList.getD []).length > 0 then _ else (0 : Rat)) = 0
    rw [he]
    rfl
  · intro hne
    show (if (data.readingList.getD []).length > 0 then _ else (0 : Rat)) = _
    rw [if_pos (List.length_pos.mpr hne)]

def W4 : Doc :=
  { articles := none
    categories := none
    bookmarks := none
    readingList := some [⟨some "2024-01-01"⟩, ⟨none⟩, ⟨some "2024-02-02"⟩, ⟨some ""⟩]
    userPreferences := none
    readingHistory := none }

def A4 : Analysis := mkAnalysis W4 []

/-- C4 witness: a 4-entry reading list with 2 completed entries (one entry
has an empty `completedAt`, which does not count), instantiating the
theorem; the progress is exactly 50. -/
theorem reading_list_progress_formula_witness :
    analyze_data W4 = Except.ok A4 ∧
      A4.reading_list_progress = 50 ∧
      (W4.readingList.getD [] = [] → A4.reading_list_progress = 0) ∧
      (W4.readingList.getD [] ≠ [] →
        A4.reading_list_progress =
          (((W4.readingList.getD []).filter (fun rl => truthy rl.completedAt)).length : Rat) /
            ((W4.readingList.getD []).length : Rat) * 100) := by
  have hA : analyze_data W4 = Except.ok A4 := rfl
  have h2 : ((W4.readingList.getD []).filter (fun rl => truthy rl.completedAt)).length = 2 := by
    decide
  have h4 : (W4.readingList.getD []).length = 4 := by decide
  refine ⟨hA, ?_, reading_list_progress_formula W4 A4 hA⟩
  show (if (W4.readingList.getD []).length > 0 then
      (((W4.readingList.getD []).filter (fun rl => truthy rl.completedAt)).length : Rat) /
        ((W4.readingList.getD []).length : Rat) * 100
    else 0) = 50
  rw [h2, h4]
  norm_num

/-! ## Determinism of the analyzer (claim C9) -/

/-- C9: `analyze_data` is a pure function — equal input documents give equal
results, and in particular every field of the summary record agrees across
two runs. -/
theorem analyze_data_deterministic (d1 d2 : Doc) (h : d1 = d2) :
    analyze_data d1 = analyze_data d2 ∧
      ∀ a1 a2, analyze_data d1 = Except.ok a1 → analyze_data d2 = Except.ok a2 →
        a1.total_articles = a2.total_articles ∧
        a1.top_articles = a2.top_articles ∧
        a1.category_counts = a2.category_counts ∧
        a1.total_bookmarks = a2.total_bookmarks ∧
        a1.reading_list_progress = a2.reading_list_progress ∧
        a1.user_preferences = a2.user_preferences ∧
        a1.total_reading_history = a2.total_reading_history ∧
        a1.total_time_spent = a2.total_time_spent := by
  subst h
  refine ⟨rfl, ?_⟩
  intro a1 a2 h1 h2
  rw [h1] at h2
  cases h2
  exact ⟨rfl, rfl, rfl, rfl, rfl, rfl, rfl, rfl⟩

/-- C9 witness: determinism instantiated on a concrete document. -/
theorem analyze_data_deterministic_witness :
    analyze_data W1 = analyze_data W1 ∧
      ∀ a1 a2, analyze_data W1 = Except.ok a1 → analyze_data W1 = Except.ok a2 →
        a1.total_articles = a2.total_articles ∧
        a1.top_articles = a2.top_articles ∧
        a1.category_counts = a2.category_counts ∧
        a1.total_bookmarks = a2.total_bookmarks ∧
        a1.reading_list_progress = a2.reading_list_progress ∧
        a1.user_preferences = a2.user_preferences ∧
        a1.total_reading_history = a2.total_reading_history ∧
        a1.total_time_spent = a2.total_time_spent :=
  analyze_data_deterministic W1 W1 rfl

/-! ## Category counts (claim C5)

The dict the loop builds is characterised by two spec-side functions:
`lastValue` (the `articleCount` of the *last* entry carrying a given name —
"last write wins") and `firstOccurrences` (the names in input iteration
order, each at its first occurrence — the insertion order a Python dict
keeps). -/

/-- The `(name, articleCount default 0)` pairs of the entries that carry a
`name`, in input order. On the analyzer's success path every entry carries
one. -/
def catPairs (cs : List Category) : List (String × Int) :=
  cs.filterMap (fun c => c.name.map (fun n => (n, c.articleCount.getD 0)))

/-- Spec-side: value of the last pair carrying key `k` ("last write wins"). -/
def lastValue : List (String × Int) → String → Option Int
  | [], _ => none
  | p :: rest, k =>
    match lastValue rest k with
    | some v => some v
    | none => if p.1 = k then some p.2 else none

/-- First-occurrence dedup relative to an already-seen set. -/
def seenDedup (seen : List String) : List String → List String
  | [] => []
  | k :: rest => if k ∈ seen then seenDedup seen rest else k :: seenDedup (k :: seen) rest

/-- Spec-side: the names in input iteration order, one per distinct name,
each at its first occurrence. -/
def firstOccurrences (names : List String) : List String := seenDedup [] names

lemma buildCategoryCounts_ok {cs : List Category} {acc cc : List (String × Int)}
    (h : buildCategoryCounts cs acc = Except.ok cc) :
    cc = (catPairs cs).foldl (fun d p => dictInsert d p.1 p.2) acc := by
  induction cs generalizing acc with
  | nil =>
    cases h
    rfl
  | cons c rest ih =>
    obtain ⟨nm, ac⟩ := c
    cases nm with
    | none => cases h
    | some n =>
      have h' : buildCategoryCounts rest (dictInsert acc n (ac.getD 0)) = Except.ok cc := h
      rw [ih h']
      simp [catPairs]

lemma dictLookup_dictInsert (d : List (String × Int)) (k : String) (v : Int) (k' : String) :
    dictLookup (dictInsert d k v) k' = if k = k' then some v else dictLookup d k' := by
  induction d with
  | nil =>
    by_cases h : k = k' <;> simp [dictInsert, dictLookup, h]
  | cons p rest ih =>
    obtain ⟨k0, v0⟩ := p
    by_cases h0 : k0 = k
    · subst h0
      by_cases h1 : k0 = k' <;> simp [dictInsert, dictLookup, h1]
    · have hkk : ¬(k = k0) := fun h => h0 h.symm
      by_cases h1 : k0 = k'
      · subst h1
        simp [dictInsert, dictLookup, h0, hkk]
      · simp [dictInsert, dictLookup, h0, h1, ih]

lemma keys_dictInsert (d : List (String × Int)) (k : String) (v : Int) :
    (dictInsert d k v).map Prod.fst =
      if k ∈ d.map Prod.fst then d.map Prod.fst else d.map Prod.fst ++ [k] := by
  induction d with
  | nil => simp [dictInsert]
  | cons p rest ih =>
    obtain ⟨k0, v0⟩ := p
    by_cases h0 : k0 = k
    · subst h0
      simp [dictInsert]
    · have hkk : ¬(k = k0) := fun h => h0 h.symm
      by_cases hm : k ∈ rest.map Prod.fst <;>
        simp [dictInsert, h0, hkk, hm, ih]

lemma dictLookup_foldl (ps : List (String × Int)) (acc : List (String × Int)) (k : String) :
    dictLookup (ps.foldl (fun d p => dictInsert d p.1 p.2) acc) k =
      match lastValue ps k with
      | some v => some v
      | none => dictLookup acc k := by
  induction ps generalizing acc with
  | nil => rfl
  | cons p rest ih =>
    show dictLookup (rest.foldl _ (dictInsert acc p.1 p.2)) k = _
    rw [ih]
    cases hl : lastValue rest k with
    | some v => simp [lastValue, hl]
    | none =>
      simp only [lastValue, hl, dictLookup_dictInsert]
      by_cases h : p.1 = k <;> simp [h]

lemma seenDedup_congr (s1 s2 : List String) (names : List String)
    (h : ∀ x, x ∈ s1 ↔ x ∈ s2) : seenDedup s1 names = seenDedup s2 names := by
  induction names generalizing s1 s2 with
  | nil => rfl
  | cons k rest ih =>
    by_cases hk : k ∈ s1
    · rw [seenDedup, if_pos hk, seenDedup, if_pos ((h k).mp hk), ih s1 s2 h]
    · rw [seenDedup, if_neg hk, seenDedup, if_neg (fun hk2 => hk ((h k).mpr hk2))]
      refine congrArg _ (ih (k :: s1) (k :: s2) ?_)
      intro x
      simp [h x]

lemma keys_foldl (ps : List (String × Int)) (acc : List (String × Int)) :
    (ps.foldl (fun d p => dictInsert d p.1 p.2) acc).map Prod.fst =
      acc.map Prod.fst ++ seenDedup (acc.map Prod.fst) (ps.map Prod.fst) := by
  induction ps generalizing acc with
  | nil => simp [seenDedup]
  | cons p rest ih =>
    show (rest.foldl _ (dictInsert acc p.1 p.2)).map Prod.fst = _
    rw [ih, keys_dictInsert]
    by_cases hm : p.1 ∈ acc.map Prod.fst
    · rw [if_pos hm]
      simp only [List.map, seenDedup, if_pos hm]
    · rw [if_neg hm]
      simp only [List.map, seenDedup, if_neg hm]
      rw [seenDedup_congr (acc.map Prod.fst ++ [p.1]) (p.1 :: acc.map Prod.fst) _
        (fun x => by simp [or_comm])]
      simp

/-- C5: on the analyzer's success path, `category_counts` maps names to
counts with last write winning — looking up `k` gives the `articleCount`
(default 0) of the last categories entry named `k` — and its stored key
order is the first-occurrence order of the names in the input iteration
order. -/
theorem category_counts_spec (data : Doc) (a : Analysis)
    (h : analyze_data data = Except.ok a) :
    a.category_counts.map Prod.fst =
      firstOccurrences ((catPairs (data.categories.getD [])).map Prod.fst) ∧
    ∀ k, dictLookup a.category_counts k = lastValue (catPairs (data.categories.getD [])) k := by
  obtain ⟨cc, hcc, rfl⟩ := analyze_data_ok_iff.mp h
  have hfold := buildCategoryCounts_ok hcc
  constructor
  · show cc.map Prod.fst = _
    rw [hfold, keys_foldl]
    rfl
  · intro k
    show dictLookup cc k = _
    rw [hfold, dictLookup_foldl]
    cases hl : lastValue (catPairs (data.categories.getD [])) k <;> simp [hl, dictLookup]

def W5 : Doc :=
  { articles := none
    categories := some [{ name := some "Tech", articleCount := some 3 },
      { name := some "Sports", articleCount := some 2 },
      { name := some "Tech", articleCount := some 7 },
      { name := some "Art", articleCount := none }]
    bookmarks := none
    readingList := none
    userPreferences := none
    readingHistory := none }

def A5 : Analysis := mkAnalysis W5 [("Tech", 7), ("Sports", 2), ("Art", 0)]

/-- C5 witness: duplicate name `Tech` with counts 3 then 7 yields a single
key `Tech` mapped to 7, keys in first-occurrence input order. -/
theorem category_counts_spec_witness :
    analyze_data W5 = Except.ok A5 ∧
      (A5.category_counts.map Prod.fst =
          firstOccurrences ((catPairs (W5.categories.getD [])).map Prod.fst) ∧
        ∀ k, dictLookup A5.category_counts k = lastValue (catPairs (W5.categories.getD [])) k) :=
  ⟨rfl, category_counts_spec W5 A5 rfl⟩

/-! ## Renderer (`build_pdf_report`, source lines 66-191)

The renderer's observable content is the ordered list of flowable elements
appended to the document.  Two external effects are explicit arguments:
the render timestamp (`datetime.now().strftime(...)`) enters as the string
`now`, and fetching the title-page image enters as `fetchImage` (returning
`none` when the resource is unreachable).  The source wraps neither the
image construction nor `doc.build` in any handler, so an unreachable image
propagates out of `build_pdf_report` as an error and no document is
produced. -/

/-- A table cell: the Python lists mix strings and integers. -/
inductive Cell where
  | str (s : String) : Cell
  | int (n : Int) : Cell
deriving DecidableEq, Repr

/-- A flowable appended to `elements`. -/
inductive Element where
  | par (text : String) : Element
  | spacer (w h : Nat) : Element
  | image (url : String) : Element
  | pageBreak : Element
  | table (rows : List (List Cell)) : Element
deriving DecidableEq, Repr

inductive RenderErr where
  | unreachableImage : RenderErr
deriving DecidableEq, Repr

def logo_url : String :=
  "https://storage.googleapis.com/workspace-0f70711f-8b4e-4d94-86f1-2a93ccde5887/image/47fa8e44-44af-4d68-9a3a-c26113e981f1.png"

/-- The Python format `f"{x:.1f}"` on the progress value, modelled on the
exact rational (round to one decimal place; the claims never inspect this
string's rounding). -/
def format1f (q : Rat) : String :=
  let n : Int := round (q * 10)
  toString (n / 10) ++ "." ++ toString (n % 10)

/-- The `summary_data` rows (source lines 104-111).  Row 2 carries the label
`Total Reading List Items` but renders the count of subscribed preference
categories. -/
def summary_data (analysis : Analysis) : List (List Cell) :=
  [[Cell.str "Total Articles", Cell.int analysis.total_articles],
   [Cell.str "Total Bookmarks", Cell.int analysis.total_bookmarks],
   [Cell.str "Total Reading List Items",
     Cell.str (toString (analysis.user_preferences.categories.getD []).length ++
       " subscribed categories")],
   [Cell.str "Reading List Completion", Cell.str (format1f analysis.reading_list_progress ++ "%")],
   [Cell.str "Total Reading History Entries", Cell.int analysis.total_reading_history],
   [Cell.str "Total Time Spent Reading (seconds)", Cell.int analysis.total_time_spent]]

/-- The category table rows (source lines 128-130). -/
def cat_data (analysis : Analysis) : List (List Cell) :=
  [Cell.str "Category", Cell.str "Article Count"] ::
    analysis.category_counts.map (fun p => [Cell.str p.1, Cell.int p.2])

/-- The top-articles table rows (source lines 148-155). -/
def top_articles_data (analysis : Analysis) : List (List Cell) :=
  [Cell.str "Title", Cell.str "Author", Cell.str "Category", Cell.str "Views",
      Cell.str "Read Time (mins)"] ::
    analysis.top_articles.map (fun article =>
      [Cell.str (article.title.getD "N/A"), Cell.str (article.author.getD "N/A"),
       Cell.str (article.category.getD "N/A"), Cell.int (article.views.getD 0),
       Cell.int (article.readTime.getD 0)])

/-- Python `', '.join(l) if l else 'None'`. -/
def joinOrNone (l : List String) : String :=
  if l.isEmpty then "None" else String.intercalate ", " l

/-- The preferences text block (source lines 174-187). -/
def prefs_paragraph (prefs : Prefs) : String :=
  let subscribed_categories := prefs.categories.getD []
  let subscribed_sources := prefs.sources.getD []
  let font_size := prefs.fontSize.getD "Default"
  let theme := prefs.theme.getD "Not set"
  let notifications := prefs.notifications.getD false
  "<b>Subscribed Categories:</b> " ++ joinOrNone subscribed_categories ++ "<br/>" ++
  "<b>Subscribed Sources:</b> " ++ joinOrNone subscribed_sources ++ "<br/>" ++
  "<b>Font Size:</b> " ++ font_size ++ "<br/>" ++
  "<b>Theme:</b> " ++ theme ++ "<br/>" ++
  "<b>Notifications Enabled:</b> " ++ (if notifications then "Yes" else "No") ++ "<br/>"

def build_pdf_report (analysis : Analysis) (now : String)
    (fetchImage : String → Option Unit) : Except RenderErr (List Element) :=
  match fetchImage logo_url with
  | none => Except.error RenderErr.unreachableImage
  | some _ =>
    Except.ok
      [Element.par "Automated News Content Reader Report",
       Element.spacer 1 12,
       Element.image logo_url,
       Element.spacer 1 24,
       Element.par ("Report generated on: " ++ now),
       Element.pageBreak,
       Element.par "Summary",
       Element.table (summary_data analysis),
       Element.spacer 1 24,
       Element.par "Articles Per Category",
       Element.table (cat_data analysis),
       Element.spacer 1 24,
       Element.par "Top 5 Articles by Views",
       Element.table (top_articles_data analysis),
       Element.spacer 1 24,
       Element.par "User Preferences Overview",
       Element.par (prefs_paragraph analysis.user_preferences)]

/-! ## Unreachable title-page image (claim C6) -/

/-- C6 counterexample: with the image resource unreachable the renderer
*does* abort — it returns the propagated error and produces no document at
all, contradicting the claimed non-fatal degradation. -/
theorem image_unreachable_aborts_counterexample :
    build_pdf_report A1 "January 01, 2026 00:00" (fun _ => none) =
      Except.error RenderErr.unreachableImage := rfl

/-- C6 amended: if the title-page image resource is unreachable,
`build_pdf_report` propagates the failure (the source has no handler around
the image or `doc.build`) and aborts without producing any element of the
document. -/
theorem image_unreachable_propagates (analysis : Analysis) (now : String)
    (fetchImage : String → Option Unit) (h : fetchImage logo_url = none) :
    build_pdf_report analysis now fetchImage = Except.error RenderErr.unreachableImage := by
  unfold build_pdf_report
  rw [h]

/-- C6 witness: the amended theorem instantiated at a concrete analysis and
a fetch that fails. -/
theorem image_unreachable_propagates_witness :
    build_pdf_report A2 "January 01, 2026 00:00" (fun _ => none) =
      Except.error RenderErr.unreachableImage :=
  image_unreachable_propagates A2 "January 01, 2026 00:00" (fun _ => none) rfl

/-! ## Loader contract (claim C7) -/

/-- C7: `load_data` fails if and only if the file is missing (not-found) or
its contents do not parse (parse-error); otherwise it returns the parsed
document unchanged — whatever generic JSON structure the parser produced,
with no validation. -/
theorem load_data_contract (parseJson : String → Option Json)
    (fileSystem : String → Option String) (filepath : String) :
    ((∃ e, load_data parseJson fileSystem filepath = Except.error e) ↔
      (fileSystem filepath = none ∨
        ∃ s, fileSystem filepath = some s ∧ parseJson s = none)) ∧
    (fileSystem filepath = none →
      load_data parseJson fileSystem filepath = Except.error LoadErr.notFound) ∧
    (∀ s, fileSystem filepath = some s → parseJson s = none →
      load_data parseJson fileSystem filepath = Except.error LoadErr.parseError) ∧
    (∀ s j, fileSystem filepath = some s → parseJson s = some j →
      load_data parseJson fileSystem filepath = Except.ok j) := by
  cases hf : fileSystem filepath with
  | none => simp [load_data, hf]
  | some s =>
    cases hp : parseJson s with
    | none =>
      simp only [load_data, hf, hp]
      refine ⟨⟨fun _ => Or.inr ⟨s, rfl, hp⟩, fun _ => ⟨LoadErr.parseError, rfl⟩⟩, ?_, ?_, ?_⟩
      · intro h
        cases h
      · intro s1 h1 hp1
        trivial
      · intro s1 j h1 hp1
        injection h1 with h1
        subst h1
        rw [hp] at hp1
        cases hp1
    | some j =>
      simp only [load_data, hf, hp]
      refine ⟨⟨?_, ?_⟩, ?_, ?_, ?_⟩
      · rintro ⟨e, he⟩
        cases he
      · rintro (h | ⟨s1, h1, hp1⟩)
        · cases h
        · injection h1 with h1
          subst h1
          rw [hp] at hp1
          cases hp1
      · intro h
        cases h
      · intro s1 h1 hp1
        injection h1 with h1
        subst h1
        rw [hp] at hp1
        cases hp1
      · intro s1 j1 h1 hp1
        injection h1 with h1
        subst h1
        rw [hp] at hp1
        cases hp1
        rfl

/-- C7 witness: the contract instantiated on a one-file file system and a
parser that wraps the contents, hitting the success clause. -/
theorem load_data_contract_witness :
    load_data (fun s => some (Json.str s)) (fun _ => some "contents") "sample_news_data.json" =
      Except.ok (Json.str "contents") :=
  (load_data_contract (fun s => some (Json.str s)) (fun _ => some "contents")
    "sample_news_data.json").2.2.2 "contents" (Json.str "contents") rfl rfl

/-! ## Preferences block for empty preferences (claim C8) -/

/-- C8: when the summary record's preferences record is empty, the rendered
preferences block (the last element of the document) reads, in this fixed
order: subscribed categories `None`, subscribed sources `None`, font size
`Default`, theme `Not set`, notifications enabled `No`. -/
theorem prefs_block_empty_defaults (analysis : Analysis) (now : String)
    (fetchImage : String → Option Unit) (r : List Element)
    (hp : analysis.user_preferences = Prefs.empty)
    (hb : build_pdf_report analysis now fetchImage = Except.ok r) :
    r.getLast? = some (Element.par
      ("<b>Subscribed Categories:</b> None<br/>" ++
       "<b>Subscribed Sources:</b> None<br/>" ++
       "<b>Font Size:</b> Default<br/>" ++
       "<b>Theme:</b> Not set<br/>" ++
       "<b>Notifications Enabled:</b> No<br/>")) := by
  unfold build_pdf_report at hb
  cases hf : fetchImage logo_url with
  | none =>
    rw [hf] at hb
    cases hb
  | some u =>
    rw [hf] at hb
    cases hb
    show some (Element.par (prefs_paragraph analysis.user_preferences)) = _
    rw [hp]
    rfl

def A8 : Analysis := mkAnalysis W1 []

/-- C8 witness: the theorem instantiated at a concrete analysis with empty
preferences and a successful image fetch. -/
theorem prefs_block_empty_defaults_witness :
    (build_pdf_report A8 "January 01, 2026 00:00" (fun _ => some ()) =
        Except.ok (match build_pdf_report A8 "January 01, 2026 00:00" (fun _ => some ()) with
          | Except.ok r => r
          | Except.error _ => [])) ∧
      (match build_pdf_report A8 "January 01, 2026 00:00" (fun _ => some ()) with
        | Except.ok r => r
        | Except.error _ => []).getLast? = some (Element.par
        ("<b>Subscribed Categories:</b> None<br/>" ++
         "<b>Subscribed Sources:</b> None<br/>" ++
         "<b>Font Size:</b> Default<br/>" ++
         "<b>Theme:</b> Not set<br/>" ++
         "<b>Notifications Enabled:</b> No<br/>")) :=
  ⟨rfl, prefs_block_empty_defaults A8 "January 01, 2026 00:00" (fun _ => some ()) _ rfl rfl⟩

/-! ## The mislabeled third summary row (claim C10) -/

/-- C10: the third row of the summary table carries the label
`Total Reading List Items` while its value is the count of
`user_preferences.categories` rendered as `<count> subscribed categories`;
it depends only on the preferences record, never on any reading-list
quantity. -/
theorem summary_third_row_label (a a' : Analysis)
    (h : a.user_preferences = a'.user_preferences) :
    (summary_data a)[2]? = some [Cell.str "Total Reading List Items",
        Cell.str (toString (a.user_preferences.categories.getD []).length ++
          " subscribed categories")] ∧
    (summary_data a)[2]? = (summary_data a')[2]? := by
  constructor
  · rfl
  · unfold summary_data
    rw [h]
    rfl

/-- C10 witness: two analyses sharing preferences but with different
reading lists (progress 0 vs 50) have the same third summary row. -/
theorem summary_third_row_label_witness :
    ((summary_data A1)[2]? = some [Cell.str "Total Reading List Items",
        Cell.str (toString (A1.user_preferences.categories.getD []).length ++
          " subscribed categories")] ∧
      (summary_data A1)[2]? = (summary_data A4)[2]?) :=
  summary_third_row_label A1 A4 rfl
